import Mathlib

/-!
# Verification of the JunctionSim Stripe webhook processor

Shallow embedding of `src/supabase_edge_function_stripe_webhook.ts`:
the Deno request handler that verifies a Stripe signature, dispatches on
the event type, and applies credit purchases, subscription payments and
subscription cancellations to the `users` and `transactions` tables.

Monetary amounts arriving from Stripe are in minor units (cents) and are
modelled as `Nat`; the values the handler writes to the store divide by
100 (`amount / 100` in JavaScript, exact rational division on numbers of
this size), so stored monetary columns are modelled as `ℚ`. Timestamps
(`new Date().toISOString()`) are modelled as an abstract `Nat` supplied to
the handler as `now`. The Supabase client is modelled as an in-memory
store plus fault flags: each flag set means the corresponding store call
returns an error object, exactly where the source checks (or ignores) it.
-/

/-- A row of the `users` table, with the column defaults of the schema
(`credits INTEGER DEFAULT 5`, `subscription_tier TEXT DEFAULT 'free'`,
`subscription_active BOOLEAN DEFAULT false`, `total_spent DECIMAL DEFAULT 0`,
nullable references and timestamps). -/
structure Account where
  credits : ℕ
  subscription_tier : String
  subscription_id : Option String
  subscription_active : Bool
  last_purchase : Option ℕ
  last_payment : Option ℕ
  total_spent : ℚ
  subscription_cancelled : Option ℕ
deriving DecidableEq, Repr

/-- A freshly inserted `users` row before the handler's supplied columns
are applied: the schema's column defaults. -/
def emptyAccount : Account :=
  { credits := 5
    subscription_tier := "free"
    subscription_id := none
    subscription_active := false
    last_purchase := none
    last_payment := none
    total_spent := 0
    subscription_cancelled := none }

/-- A row of the `transactions` table, as inserted by the handler. -/
structure Transaction where
  user_email : String
  session_id : Option String
  subscription_id : Option String
  amount : ℚ
  credits_added : Option ℕ
  timestamp : ℕ
  type : String
  status : String
deriving DecidableEq, Repr

/-- The persistent store the handler reads and writes: the `users` table
keyed by email, and the append-only `transactions` table. -/
structure Store where
  userMap : String → Option Account
  transactions : List Transaction

/-- The row shape returned by `select("credits").eq("email",…).single()`:
only the `credits` column is projected, so `total_spent` is absent from
the returned row (reading it in JavaScript yields `undefined`). -/
structure Row where
  credits : Option ℕ
  total_spent : Option ℚ

/-- The `users` fetch of the checkout handler: `.single()` yields the row
for the email, projected to the `credits` column, or no row. -/
def fetchRow (st : Store) (email : String) : Option Row :=
  (st.userMap email).map fun a => { credits := some a.credits, total_spent := none }

/-- The checkout handler's upsert with `onConflict: "email"`: the supplied
columns (`credits`, `last_purchase`, `total_spent`, `subscription_tier`)
overwrite the existing row's, or are combined with the schema defaults for
a new row; columns not in the payload keep their stored values. -/
def upsertUser (st : Store) (email : String) (newCredits : ℕ) (now : ℕ)
    (spent : ℚ) : Store :=
  let base := (st.userMap email).getD emptyAccount
  { st with
    userMap := fun x =>
      if x = email then
        some { base with
               credits := newCredits
               last_purchase := some now
               total_spent := spent
               subscription_tier := "free" }
      else st.userMap x }

/-- A Supabase `update(…).eq("email", email)`: rewrites the matching row
in place; with no matching row it affects nothing and reports no error. -/
def updateUser (st : Store) (email : String) (g : Account → Account) : Store :=
  { st with
    userMap := fun x =>
      if x = email then (st.userMap email).map g else st.userMap x }

/-- An insert into the `transactions` table. -/
def appendTx (st : Store) (t : Transaction) : Store :=
  { st with transactions := st.transactions ++ [t] }

/-- The inbound Stripe event after decoding, carrying exactly the fields
the handler reads. `checkoutCompleted` carries
`session.customer_details?.email`, `session.amount_total` and
`session.id`; `invoicePaymentSucceeded` carries `invoice.customer_email`,
`invoice.amount_paid` and `invoice.subscription`;
`subscriptionDeleted` carries `subscription.customer`. Every event type
other than the three handled ones is `other`. -/
inductive StripeEvent where
  | checkoutCompleted (email : Option String) (amountTotal : Option ℕ)
      (sessionId : String)
  | invoicePaymentSucceeded (email : Option String) (amountPaid : Option ℕ)
      (subscriptionId : String)
  | subscriptionDeleted (customerId : String)
  | other
deriving DecidableEq

/-- One line item of a retrieved subscription
(`subscription.items.data[i]`), carrying `price.id` and `price.product`. -/
structure PriceItem where
  priceId : String
  productId : String

/-- A retrieved Stripe subscription: its line items. -/
structure Subscription where
  items : List PriceItem

/-- A retrieved Stripe product: its display name. -/
structure Product where
  name : String

/-- A retrieved Stripe customer: the `deleted` marker and the email. -/
structure Customer where
  deleted : Bool
  email : Option String

/-- The Stripe read API as the handler consumes it; `none` models the API
call rejecting (which the source catches and turns into a 500). -/
structure Provider where
  retrieveSubscription : String → Option Subscription
  retrieveProduct : String → Option Product
  retrieveCustomer : String → Option Customer

/-- Fault flags for the four Supabase calls the handler makes: a set flag
means that call returns an error object. -/
structure Faults where
  fetchFail : Bool
  upsertFail : Bool
  updateFail : Bool
  insertFail : Bool

/-- No store call fails. -/
def noFaults : Faults :=
  { fetchFail := false, upsertFail := false, updateFail := false
    insertFail := false }

/-- The HTTP status of the handler's response: 200, 400 or 500. -/
inductive HStatus where
  | s200
  | s400
  | s500
deriving DecidableEq, Repr

/-- `String.includes` of JavaScript: `pat` occurs contiguously in `s`. -/
def strIncludes (s pat : String) : Bool :=
  (List.range (s.toList.length + 1)).any fun i =>
    pat.toList.isPrefixOf (s.toList.drop i)

/-- The entire request handler (`Deno.serve` body). `sigOk` is the verdict
of `stripe.webhooks.constructEventAsync`: `false` means verification threw
and the handler answers 400 at once. Mirrors the source branch for branch;
JavaScript falsiness of the email strings (`!userEmail`) makes both a
missing and an empty email a 400. The `transactions` insert's error is not
checked by the source, so an `insertFail` only drops the record. -/
def serve (sigOk : Bool) (ev : StripeEvent) (pr : Provider) (f : Faults)
    (now : ℕ) (st : Store) : HStatus × Store :=
  if sigOk = false then (.s400, st)
  else
    match ev with
    | .checkoutCompleted emailOpt amountTotal sessionId =>
        match emailOpt with
        | none => (.s400, st)
        | some userEmail =>
            if userEmail = "" then (.s400, st)
            else
              let amount := amountTotal.getD 0
              if f.fetchFail then (.s500, st)
              else
                let userData := fetchRow st userEmail
                let currentCredits := (userData.bind Row.credits).getD 0
                let creditsToAdd := amount / 10
                let newCredits := currentCredits + creditsToAdd
                if f.upsertFail then (.s500, st)
                else
                  let st1 := upsertUser st userEmail newCredits now
                    (((userData.bind Row.total_spent).getD 0) + (amount : ℚ) / 100)
                  let st2 :=
                    if f.insertFail then st1
                    else appendTx st1
                      { user_email := userEmail
                        session_id := some sessionId
                        subscription_id := none
                        amount := (amount : ℚ) / 100
                        credits_added := some creditsToAdd
                        timestamp := now
                        type := "credit_purchase"
                        status := "completed" }
                  (.s200, st2)
    | .invoicePaymentSucceeded emailOpt amountPaid subscriptionId =>
        match emailOpt with
        | none => (.s400, st)
        | some customerEmail =>
            if customerEmail = "" then (.s400, st)
            else
              let amountPaidN := amountPaid.getD 0
              match pr.retrieveSubscription subscriptionId with
              | none => (.s500, st)
              | some subscription =>
                  match subscription.items.head? with
                  | none => (.s500, st)
                  | some item =>
                      match pr.retrieveProduct item.productId with
                      | none => (.s500, st)
                      | some product =>
                          let tier :=
                            if strIncludes product.name "Premium" then "premium"
                            else "enterprise"
                          if f.updateFail then (.s500, st)
                          else
                            let st1 := updateUser st customerEmail fun a =>
                              { a with
                                subscription_tier := tier
                                subscription_id := some subscriptionId
                                subscription_active := true
                                last_payment := some now }
                            let st2 :=
                              if f.insertFail then st1
                              else appendTx st1
                                { user_email := customerEmail
                                  session_id := none
                                  subscription_id := some subscriptionId
                                  amount := (amountPaidN : ℚ) / 100
                                  credits_added := none
                                  timestamp := now
                                  type := "subscription_payment"
                                  status := "completed" }
                            (.s200, st2)
    | .subscriptionDeleted customerId =>
        match pr.retrieveCustomer customerId with
        | none => (.s500, st)
        | some customer =>
            match (if customer.deleted = false then customer.email else none) with
            | none => (.s400, st)
            | some e =>
                if e = "" then (.s400, st)
                else if f.updateFail then (.s500, st)
                else
                  (.s200, updateUser st e fun a =>
                    { a with
                      subscription_active := false
                      subscription_cancelled := some now })
    | .other => (.s200, st)

/-- Discriminates the `checkout.session.completed` branch of the dispatch. -/
def StripeEvent.isCheckout : StripeEvent → Bool
  | .checkoutCompleted _ _ _ => true
  | _ => false

/-- Discriminates the `invoice.payment_succeeded` branch of the dispatch. -/
def StripeEvent.isInvoice : StripeEvent → Bool
  | .invoicePaymentSucceeded _ _ _ => true
  | _ => false

/-- A provider whose every read API call rejects; the checkout handler
makes no provider calls, so it serves as a neutral environment there. -/
def trivProvider : Provider :=
  { retrieveSubscription := fun _ => none
    retrieveProduct := fun _ => none
    retrieveCustomer := fun _ => none }

/-- A provider for which every lookup succeeds: every subscription has one
line item on product `prod_1`, whose display name contains `Premium`, and
every customer is live with email `u@x.com`. -/
def demoProvider : Provider :=
  { retrieveSubscription := fun _ => some ⟨[⟨"price_1", "prod_1"⟩]⟩
    retrieveProduct := fun _ => some ⟨"JunctionSim Premium"⟩
    retrieveCustomer := fun _ => some ⟨false, some "u@x.com"⟩ }

/-- The store with no users and no transactions. -/
def emptyStore : Store := ⟨fun _ => none, []⟩

/-- An account with 5 credits, cumulative spend 5 and subscription tier
`premium`, used for concrete runs. -/
def demoAcct : Account :=
  { emptyAccount with
    credits := 5, total_spent := 5, subscription_tier := "premium" }

/-- A store holding one account, `u@x.com` (see `demoAcct`), and an empty
transaction log. -/
def demoStore : Store :=
  ⟨fun x => if x = "u@x.com" then some demoAcct else none, []⟩

/-- Reading the user map after `updateUser`: the matching row (if any) is
rewritten through `g`; every other lookup, and every lookup when the row
is absent, is unchanged. -/
theorem updateUser_userMap (st : Store) (em : String) (g : Account → Account)
    (x : String) :
    (updateUser st em g).userMap x =
      if x = em then (st.userMap em).map g else st.userMap x := rfl

/-- `updateUser` never touches the transaction log. -/
theorem updateUser_transactions (st : Store) (em : String)
    (g : Account → Account) :
    (updateUser st em g).transactions = st.transactions := rfl

/-- If the rewriting function preserves the credits column, `updateUser`
preserves every stored account's credits. -/
theorem updateUser_credits (st : Store) (em : String) (g : Account → Account)
    (x : String) (a a' : Account)
    (hx : st.userMap x = some a)
    (h' : (updateUser st em g).userMap x = some a')
    (hg : ∀ b, (g b).credits = b.credits) :
    a'.credits = a.credits := by
  rw [updateUser_userMap] at h'
  by_cases hxe : x = em
  · subst hxe
    rw [if_pos rfl, hx, Option.map_some'] at h'
    injection h' with hh
    subst hh
    exact hg a
  · rw [if_neg hxe, hx] at h'
    injection h' with hh
    subst hh
    rfl

/-- Reading the user map after the checkout upsert. -/
theorem upsertUser_userMap (st : Store) (em : String) (nc now : ℕ) (sp : ℚ)
    (x : String) :
    (upsertUser st em nc now sp).userMap x =
      if x = em then
        some { (st.userMap em).getD emptyAccount with
               credits := nc
               last_purchase := some now
               total_spent := sp
               subscription_tier := "free" }
      else st.userMap x := rfl

/-- `upsertUser` never touches the transaction log. -/
theorem upsertUser_transactions (st : Store) (em : String) (nc now : ℕ)
    (sp : ℚ) :
    (upsertUser st em nc now sp).transactions = st.transactions := rfl

/-- `appendTx` never touches the user map. -/
theorem appendTx_userMap (st : Store) (t : Transaction) (x : String) :
    (appendTx st t).userMap x = st.userMap x := rfl

/-!
## Claims

Each claim of the specification is settled by one theorem below; concrete
runs of `serve` discharge every evaluation by `decide`.
-/

/-- C1: the handler does not double-credit on duplicate delivery of the
same provider session identifier. The source has no idempotency check, so
delivering the identical `checkout.session.completed` event (session
`cs_1`, amount 1000) twice to the account `u@x.com` with 5 prior credits
yields balance 105 after the first application and 205 — a double credit —
after the replay. -/
theorem C1_replay_double_credits :
    (((serve true (.checkoutCompleted (some "u@x.com") (some 1000) "cs_1")
        trivProvider noFaults 0 demoStore).2.userMap "u@x.com").map
      Account.credits = some 105) ∧
    (((serve true (.checkoutCompleted (some "u@x.com") (some 1000) "cs_1")
        trivProvider noFaults 1
        (serve true (.checkoutCompleted (some "u@x.com") (some 1000) "cs_1")
          trivProvider noFaults 0 demoStore).2).2.userMap "u@x.com").map
      Account.credits = some 205) := by
  decide

/-- C2: for a purchase of amount 1000 on the account `u@x.com` with prior
balance 5 and prior cumulative spend 5, the stored balance is the claimed
105, but the stored cumulative spend is 10, not the claimed 5 + 1000/100 =
15: the fetch `select("credits")` omits `total_spent`, so the handler's
`(userData?.total_spent || 0)` term is always 0 and the prior spend is
overwritten. -/
theorem C2_total_spent_not_accumulated :
    (((serve true (.checkoutCompleted (some "u@x.com") (some 1000) "cs_1")
        trivProvider noFaults 0 demoStore).2.userMap "u@x.com").map
      Account.credits = some 105) ∧
    (((serve true (.checkoutCompleted (some "u@x.com") (some 1000) "cs_1")
        trivProvider noFaults 0 demoStore).2.userMap "u@x.com").map
      Account.total_spent = some 10) ∧
    ¬ (((serve true (.checkoutCompleted (some "u@x.com") (some 1000) "cs_1")
        trivProvider noFaults 0 demoStore).2.userMap "u@x.com").map
      Account.total_spent = some 15) := by
  have hts : ((serve true (.checkoutCompleted (some "u@x.com") (some 1000)
      "cs_1") trivProvider noFaults 0 demoStore).2.userMap "u@x.com").map
      Account.total_spent = some 10 := by
    norm_num [serve, fetchRow, upsertUser, appendTx, demoStore, demoAcct,
      emptyAccount, noFaults, trivProvider,
      (by decide : ("u@x.com" : String) ≠ "")]
  refine ⟨by decide, hts, ?_⟩
  rw [hts]
  intro hc
  have : (10 : ℚ) = 15 := by injection hc
  norm_num at this

/-- C3 counterexample: the `transactions` insert's error object is never
checked, so when that insert fails the checkout handler still answers 200
with the ledger changed (credits 5 → 105) and no audit record appended. -/
theorem C3_counterexample_success_without_audit_record :
    ((serve true (.checkoutCompleted (some "u@x.com") (some 1000) "cs_1")
      trivProvider ⟨false, false, false, true⟩ 0 demoStore).1 = .s200) ∧
    (((serve true (.checkoutCompleted (some "u@x.com") (some 1000) "cs_1")
        trivProvider ⟨false, false, false, true⟩ 0 demoStore).2.userMap
        "u@x.com").map Account.credits = some 105) ∧
    ((serve true (.checkoutCompleted (some "u@x.com") (some 1000) "cs_1")
      trivProvider ⟨false, false, false, true⟩ 0 demoStore).2.transactions
      = []) := by
  decide

/-- C4 counterexample: the account `u@x.com` exists with subscription tier
`premium`; processing a credit purchase for it rewrites the tier to `free`,
because the upsert payload carries `subscription_tier: "free"`
unconditionally and `onConflict: "email"` overwrites the stored column. -/
theorem C4_counterexample_tier_reset :
    ((demoStore.userMap "u@x.com").map Account.subscription_tier
      = some "premium") ∧
    (((serve true (.checkoutCompleted (some "u@x.com") (some 1000) "cs_1")
        trivProvider noFaults 0 demoStore).2.userMap "u@x.com").map
      Account.subscription_tier = some "free") := by
  decide

/-- C5 counterexample: a subscription payment for the previously-unseen
email `new@x.com` succeeds (200) against an empty store — the provider
lookups all resolve — yet afterwards the store still has no account for
that email: the handler uses `update(…).eq("email",…)`, which matches no
row and creates nothing. -/
theorem C5_counterexample_invoice_creates_no_account :
    ((serve true (.invoicePaymentSucceeded (some "new@x.com") (some 1000)
      "sub_1") demoProvider noFaults 0 emptyStore).1 = .s200) ∧
    ((serve true (.invoicePaymentSucceeded (some "new@x.com") (some 1000)
      "sub_1") demoProvider noFaults 0 emptyStore).2.userMap "new@x.com"
      = none) := by
  decide

/-- C7: whenever the handler answers 400 — signature failure, missing or
empty customer email on a purchase or subscription-payment event, or an
unresolvable customer email on a cancellation event — the store it returns
is exactly the store it was given: no account write and no transaction
insert happened. -/
theorem C7_client_error_no_store_writes (sig : Bool) (ev : StripeEvent)
    (pr : Provider) (f : Faults) (now : ℕ) (st st' : Store)
    (h : serve sig ev pr f now st = (.s400, st')) : st' = st := by
  unfold serve at h
  repeat' split at h
  all_goals
    injection h with h1 h2
    first
    | exact h2.symm
    | exact absurd h1 (by decide)

/-- C7 witness: a request failing signature verification answers 400 and,
by `C7_client_error_no_store_writes`, leaves the store untouched. -/
theorem C7_client_error_no_store_writes_witness :
    ((serve false StripeEvent.other trivProvider noFaults 0 demoStore).1
      = .s400) ∧
    ((serve false StripeEvent.other trivProvider noFaults 0 demoStore).2
      = demoStore) :=
  ⟨rfl, C7_client_error_no_store_writes false .other trivProvider noFaults 0
    demoStore _ rfl⟩

/-- C8: an authenticated event of any kind other than the three handled
ones is acknowledged with 200 and the store is returned exactly as given —
no store operation is performed. -/
theorem C8_unknown_kind_acknowledged (pr : Provider) (f : Faults) (now : ℕ)
    (st : Store) : serve true .other pr f now st = (.s200, st) := rfl

/-- C3 (amended): when the transaction-log insert does not fail, every run
of a state-changing handler (credit purchase or subscription payment) that
answers 200 appends exactly one record to the transaction log; the original
claim's guarantee fails only because the insert's error object is ignored
(see the counterexample). -/
theorem C3_amended_one_record_appended (sig : Bool) (ev : StripeEvent)
    (pr : Provider) (f : Faults) (now : ℕ) (st st' : Store)
    (hins : f.insertFail = false)
    (hev : ev.isCheckout = true ∨ ev.isInvoice = true)
    (h : serve sig ev pr f now st = (.s200, st')) :
    ∃ t, st'.transactions = st.transactions ++ [t] := by
  unfold serve at h
  repeat' split at h
  all_goals first
    | (injection h with h1 h2; exact absurd h1 (by decide))
    | (simp [StripeEvent.isCheckout, StripeEvent.isInvoice] at hev; done)
    | (simp_all; done)
    | (injection h with h1 h2
       subst h2
       exact ⟨_, rfl⟩)

/-- C3 (amended) witness: a concrete credit purchase with the insert
succeeding appends exactly one transaction record. -/
theorem C3_amended_one_record_appended_witness :
    noFaults.insertFail = false ∧
    (StripeEvent.checkoutCompleted (some "u@x.com") (some 1000)
      "cs_1").isCheckout = true ∧
    ∃ t, (serve true (.checkoutCompleted (some "u@x.com") (some 1000) "cs_1")
      trivProvider noFaults 0 demoStore).2.transactions
      = demoStore.transactions ++ [t] :=
  ⟨rfl, rfl, C3_amended_one_record_appended true
    (.checkoutCompleted (some "u@x.com") (some 1000) "cs_1") trivProvider
    noFaults 0 demoStore _ rfl (Or.inl rfl) rfl⟩

/-- C4 (amended): a successfully processed credit purchase stores
subscription tier `free` unconditionally — for an account that already
existed just as for a newly created one — because the upsert payload always
carries `subscription_tier: "free"`. -/
theorem C4_amended_tier_always_free (em : String) (amt : Option ℕ)
    (sid : String) (pr : Provider) (f : Faults) (now : ℕ) (st st' : Store)
    (a' : Account)
    (h : serve true (.checkoutCompleted (some em) amt sid) pr f now st
      = (.s200, st'))
    (ha' : st'.userMap em = some a') :
    a'.subscription_tier = "free" := by
  simp only [serve, reduceIte] at h
  repeat' split at h
  all_goals first
    | (injection h with h1 h2; exact absurd h1 (by decide))
    | (injection h with h1 h2
       subst h2
       simp [appendTx_userMap, upsertUser_userMap] at ha'
       subst ha'
       rfl)

/-- C4 (amended) witness: after a purchase on the existing `premium`
account, the stored tier is `free`. -/
theorem C4_amended_tier_always_free_witness :
    (((serve true (.checkoutCompleted (some "u@x.com") (some 1000) "cs_1")
      trivProvider noFaults 0 demoStore).2.userMap "u@x.com").getD
      emptyAccount).subscription_tier = "free" :=
  C4_amended_tier_always_free "u@x.com" (some 1000) "cs_1" trivProvider
    noFaults 0 demoStore _ _ rfl rfl

/-- C5 (amended): only the credit-purchase handler creates a
previously-unseen account (its upsert inserts the row); the
subscription-payment handler updates in place, so for an unseen identifier
it leaves the store without that account — whatever its outcome — rather
than creating it. -/
theorem C5_amended_only_checkout_creates (pr : Provider) (f : Faults)
    (now : ℕ) (st : Store) (e : String) (h : st.userMap e = none) :
    (∀ amt sid st', serve true (.checkoutCompleted (some e) amt sid) pr f
        now st = (.s200, st') → ∃ a, st'.userMap e = some a) ∧
    (∀ amt sid, (serve true (.invoicePaymentSucceeded (some e) amt sid) pr
        f now st).2.userMap e = none) := by
  constructor
  · intro amt sid st' hs
    simp only [serve, reduceIte] at hs
    repeat' split at hs
    all_goals first
      | (injection hs with h1 h2; exact absurd h1 (by decide))
      | (injection hs with h1 h2
         subst h2
         apply Option.isSome_iff_exists.mp
         first
           | rw [appendTx_userMap, upsertUser_userMap, if_pos rfl]
           | rw [upsertUser_userMap, if_pos rfl]
         rfl)
  · intro amt sid
    simp only [serve, reduceIte]
    repeat' split
    all_goals first
      | exact h
      | simp [appendTx_userMap, updateUser_userMap, h]

/-- C5 (amended) witness: against an empty store, a checkout for
`n@x.com` creates the account while a subscription payment for the same
unseen email leaves it absent. -/
theorem C5_amended_only_checkout_creates_witness :
    (∃ a, (serve true (.checkoutCompleted (some "n@x.com") (some 1000)
      "cs_9") demoProvider noFaults 7 emptyStore).2.userMap "n@x.com"
      = some a) ∧
    ((serve true (.invoicePaymentSucceeded (some "n@x.com") (some 1000)
      "sub_9") demoProvider noFaults 7 emptyStore).2.userMap "n@x.com"
      = none) :=
  ⟨(C5_amended_only_checkout_creates demoProvider noFaults 7 emptyStore
      "n@x.com" rfl).1 (some 1000) "cs_9" _ rfl,
   (C5_amended_only_checkout_creates demoProvider noFaults 7 emptyStore
      "n@x.com" rfl).2 (some 1000) "sub_9"⟩

/-- C6: for a subscription-payment event with a resolvable customer email
whose provider lookups succeed and whose store calls do not fail, the
handler answers 200, sets the existing account's tier to `premium` when
the product name contains `Premium` (else `enterprise`), sets the
subscription reference, sets subscription-active, stamps the last-payment
timestamp, and appends one `subscription_payment` transaction with status
`completed`. -/
theorem C6_subscription_payment_effects (e : String) (he : e ≠ "")
    (amt : Option ℕ) (sid : String) (pr : Provider) (now : ℕ) (st : Store)
    (a : Account) (sub : Subscription) (item : PriceItem) (product : Product)
    (hsub : pr.retrieveSubscription sid = some sub)
    (hitem : sub.items.head? = some item)
    (hprod : pr.retrieveProduct item.productId = some product)
    (ha : st.userMap e = some a) :
    (serve true (.invoicePaymentSucceeded (some e) amt sid) pr noFaults now
      st).1 = .s200 ∧
    (serve true (.invoicePaymentSucceeded (some e) amt sid) pr noFaults now
      st).2.userMap e = some { a with
        subscription_tier :=
          if strIncludes product.name "Premium" then "premium"
          else "enterprise"
        subscription_id := some sid
        subscription_active := true
        last_payment := some now } ∧
    (serve true (.invoicePaymentSucceeded (some e) amt sid) pr noFaults now
      st).2.transactions = st.transactions ++
      [{ user_email := e, session_id := none, subscription_id := some sid,
         amount := ((amt.getD 0 : ℕ) : ℚ) / 100, credits_added := none,
         timestamp := now, type := "subscription_payment",
         status := "completed" }] := by
  simp only [serve, reduceIte, hsub, hitem, hprod]
  rw [if_neg he]
  simp [noFaults, appendTx, appendTx_userMap, updateUser_userMap,
    updateUser_transactions, ha]

/-- C6 witness: a concrete subscription payment against `demoStore` and
`demoProvider` (product `JunctionSim Premium`) produces exactly the
claimed account fields and transaction record. -/
theorem C6_subscription_payment_effects_witness :
    (serve true (.invoicePaymentSucceeded (some "u@x.com") (some 2500)
      "sub_1") demoProvider noFaults 3 demoStore).1 = .s200 ∧
    (serve true (.invoicePaymentSucceeded (some "u@x.com") (some 2500)
      "sub_1") demoProvider noFaults 3 demoStore).2.userMap "u@x.com"
      = some { demoAcct with
          subscription_tier :=
            if strIncludes "JunctionSim Premium" "Premium" then "premium"
            else "enterprise"
          subscription_id := some "sub_1"
          subscription_active := true
          last_payment := some 3 } ∧
    (serve true (.invoicePaymentSucceeded (some "u@x.com") (some 2500)
      "sub_1") demoProvider noFaults 3 demoStore).2.transactions
      = demoStore.transactions ++
      [{ user_email := "u@x.com", session_id := none,
         subscription_id := some "sub_1",
         amount := ((2500 : ℕ) : ℚ) / 100, credits_added := none,
         timestamp := 3, type := "subscription_payment",
         status := "completed" }] :=
  C6_subscription_payment_effects "u@x.com" (by decide) (some 2500) "sub_1"
    demoProvider 3 demoStore demoAcct ⟨[⟨"price_1", "prod_1"⟩]⟩
    ⟨"price_1", "prod_1"⟩ ⟨"JunctionSim Premium"⟩ rfl rfl rfl rfl

/-- C9: for every account present in the store before processing, no run
of the handler — any event kind, any provider behaviour, any fault
pattern — decreases its credit balance, and any event other than a credit
purchase leaves the balance exactly unchanged. -/
theorem C9_credits_monotone (sig : Bool) (ev : StripeEvent) (pr : Provider)
    (f : Faults) (now : ℕ) (st : Store) (e : String) (a a' : Account)
    (h : st.userMap e = some a)
    (h' : (serve sig ev pr f now st).2.userMap e = some a') :
    a.credits ≤ a'.credits ∧
      (ev.isCheckout = false → a'.credits = a.credits) := by
  unfold serve at h'
  repeat' split at h'
  all_goals try
    (replace h' : st.userMap e = some a' := h'
     rw [h] at h'
     injection h' with hh
     subst hh
     exact ⟨le_refl _, fun _ => rfl⟩)
  all_goals first
    | (replace h' : (updateUser st _ _).userMap e = some a' := h'
       have hcred := updateUser_credits _ _ _ _ _ _ h h' (fun b => rfl)
       exact ⟨hcred.symm.le, fun _ => hcred⟩)
    | (replace h' : (upsertUser st _ _ _ _).userMap e = some a' := h'
       rw [upsertUser_userMap] at h'
       split at h'
       · rename_i hxe
         subst hxe
         simp [fetchRow, h] at h'
         subst h'
         exact ⟨Nat.le_add_right _ _,
           fun hc => by simp [StripeEvent.isCheckout] at hc⟩
       · rw [h] at h'
         injection h' with hh
         subst hh
         exact ⟨le_refl _, fun _ => rfl⟩)

/-- C9 witness: an unhandled event leaves the demo account's balance
unchanged, instantiating the monotonicity theorem. -/
theorem C9_credits_monotone_witness :
    demoAcct.credits ≤ demoAcct.credits ∧
    (StripeEvent.other.isCheckout = false →
      demoAcct.credits = demoAcct.credits) :=
  C9_credits_monotone true .other trivProvider noFaults 0 demoStore
    "u@x.com" demoAcct demoAcct rfl rfl

/-- C10: a checkout event with a customer email and `amount_total` null or
0 is processed as a success: 200 is returned, a transaction record with
amount 0, credits_added 0 and status `completed` is appended, and the
account is upserted with 0 credits granted, the last-purchase timestamp,
tier `free` and cumulative spend written (as 0). -/
theorem C10_zero_amount_checkout (e : String) (he : e ≠ "") (sid : String)
    (pr : Provider) (now : ℕ) (st : Store) (amt : Option ℕ)
    (hamt : amt = none ∨ amt = some 0) :
    (serve true (.checkoutCompleted (some e) amt sid) pr noFaults now st).1
      = .s200 ∧
    (serve true (.checkoutCompleted (some e) amt sid) pr noFaults now
      st).2.transactions = st.transactions ++
      [{ user_email := e, session_id := some sid, subscription_id := none,
         amount := 0, credits_added := some 0, timestamp := now,
         type := "credit_purchase", status := "completed" }] ∧
    ∃ a', (serve true (.checkoutCompleted (some e) amt sid) pr noFaults now
        st).2.userMap e = some a' ∧
      a'.credits = ((st.userMap e).map Account.credits).getD 0 ∧
      a'.last_purchase = some now ∧
      a'.subscription_tier = "free" ∧
      a'.total_spent = 0 := by
  have hz : amt.getD 0 = 0 := by rcases hamt with rfl | rfl <;> rfl
  refine ⟨?_, ?_, ?_⟩
  · simp [serve, he, noFaults]
  · norm_num [serve, he, noFaults, appendTx, upsertUser_transactions, hz]
  · have hm : (serve true (.checkoutCompleted (some e) amt sid) pr noFaults
        now st).2.userMap e
        = some { (st.userMap e).getD emptyAccount with
                 credits := ((fetchRow st e).bind Row.credits).getD 0
                 last_purchase := some now
                 total_spent := ((fetchRow st e).bind Row.total_spent).getD 0
                 subscription_tier := "free" } := by
      norm_num [serve, he, noFaults, appendTx_userMap, upsertUser_userMap, hz]
    refine ⟨_, hm, ?_, rfl, rfl, ?_⟩
    · cases hu : st.userMap e <;> simp [fetchRow, hu]
    · cases hu : st.userMap e <;> simp [fetchRow, hu]

/-- C10 witness: a checkout with `amount_total` null for the existing demo
account answers 200, appends the zero-amount record, and stores the
claimed account fields. -/
theorem C10_zero_amount_checkout_witness :
    (serve true (.checkoutCompleted (some "u@x.com") none "cs_0")
      trivProvider noFaults 4 demoStore).1 = .s200 ∧
    (serve true (.checkoutCompleted (some "u@x.com") none "cs_0")
      trivProvider noFaults 4 demoStore).2.transactions
      = demoStore.transactions ++
      [{ user_email := "u@x.com", session_id := some "cs_0",
         subscription_id := none, amount := 0, credits_added := some 0,
         timestamp := 4, type := "credit_purchase", status := "completed" }] ∧
    ∃ a', (serve true (.checkoutCompleted (some "u@x.com") none "cs_0")
        trivProvider noFaults 4 demoStore).2.userMap "u@x.com" = some a' ∧
      a'.credits = ((demoStore.userMap "u@x.com").map Account.credits).getD 0 ∧
      a'.last_purchase = some 4 ∧
      a'.subscription_tier = "free" ∧
      a'.total_spent = 0 :=
  C10_zero_amount_checkout "u@x.com" (by decide) "cs_0" trivProvider 4
    demoStore none (Or.inl rfl)
